import Mathlib

/-!
Verification development for the Physical_AI_book_Database backend.

The definitions below are a shallow embedding, in Lean, of the JavaScript
source of the repository: the singleton database pool (`lib/database.mjs`),
the authentication guard (`middleware/auth.mjs`), the rate limiters
(`middleware/rate-limit.mjs`) and their wiring in `createRouter`
(`utils/api-handler.mjs`), the profile and personalize route handlers
(`utils/api-handler.mjs`), and the environment validator
(`lib/env-validator.mjs`).  JavaScript truthiness on strings (where both
`undefined`/`null` and the empty string are falsy) is modelled with
`Option String` together with the `truthy` predicate; database timestamps
(`NOW()`) are an explicit `now : Nat` parameter; the `pg` pool object is a
record carrying its configuration plus a construction counter so that
"how many pools were constructed" is observable.
-/

/-- JavaScript truthiness for an optional string value: `undefined`, `null`
and `""` are falsy, every other string is truthy. -/
def truthy : Option String → Bool
  | none => false
  | some s => s ≠ ""

/-- Models the JavaScript expression `x || null`: a falsy value (absent or
empty string) collapses to `null`. -/
def orNull (o : Option String) : Option String :=
  if truthy o then o else none

/-- SQL `COALESCE(a, b)`: the first operand when it is non-null, otherwise
the second. -/
def coalesce (a b : Option String) : Option String :=
  match a with
  | some v => some v
  | none => b

/-! ## Singleton database pool (`lib/database.mjs`) -/

/-- Configuration passed to `new Pool({...})` in `getPool`. -/
structure PoolConfig where
  connectionString : String
  max : Nat
  idleTimeoutMillis : Nat
  connectionTimeoutMillis : Nat
deriving DecidableEq

/-- A constructed `pg` pool object.  The `id` field distinguishes distinct
constructions of a pool within one process. -/
structure Pool where
  id : Nat
  config : PoolConfig
deriving DecidableEq

/-- The module-level state of `lib/database.mjs`: the memoized
`let pool = null` slot, plus a counter of how many pool objects have been
constructed so far in this process. -/
structure PoolState where
  pool : Option Pool
  created : Nat
deriving DecidableEq

/-- `getPool()` from `lib/database.mjs`: returns the memoized pool if one
exists; otherwise throws when `DATABASE_URL` is falsy
(`if (!process.env.DATABASE_URL)` — absent or the empty string), and
otherwise constructs and memoizes a pool with `max 1`,
`idleTimeoutMillis 30000`, `connectionTimeoutMillis 5000`. -/
def getPool (databaseUrl : Option String) (st : PoolState) :
    Except String (Pool × PoolState) :=
  match st.pool with
  | some p => .ok (p, st)
  | none =>
    if truthy databaseUrl then
      match databaseUrl with
      | some url =>
        let p : Pool :=
          { id := st.created
            config :=
              { connectionString := url
                max := 1
                idleTimeoutMillis := 30000
                connectionTimeoutMillis := 5000 } }
        .ok (p, { pool := some p, created := st.created + 1 })
      | none => .error "DATABASE_URL environment variable is required"
    else .error "DATABASE_URL environment variable is required"

/-- A sequence of `n` calls to `getPool()` within one process, returning the
result of each call together with the final module state. -/
def getPoolCalls (databaseUrl : Option String) :
    Nat → PoolState → List (Except String Pool) × PoolState
  | 0, st => ([], st)
  | n + 1, st =>
    match getPool databaseUrl st with
    | .ok (p, st') =>
      let rec' := getPoolCalls databaseUrl n st'
      (.ok p :: rec'.1, rec'.2)
    | .error e =>
      let rec' := getPoolCalls databaseUrl n st
      (.error e :: rec'.1, rec'.2)

/-! ## Profile rows and the `user_profiles` table -/

/-- A row of the `user_profiles` table. -/
structure ProfileRow where
  skill_level : Option String
  software_background : Option String
  hardware_background : Option String
  learning_goal : Option String
  createdAt : Nat
  updatedAt : Nat
deriving DecidableEq

/-- The `user_profiles` table, keyed by `"userId"`. -/
def DB := List (String × ProfileRow)

instance : DecidableEq DB := by
  unfold DB
  infer_instance

/-- `SELECT * FROM user_profiles WHERE "userId" = $1`. -/
def dbLookup : DB → String → Option ProfileRow
  | [], _ => none
  | (k, r) :: rest, u => if k = u then some r else dbLookup rest u

/-- `INSERT ... ON CONFLICT ("userId") DO UPDATE`: inserts `ins` when no row
with key `k` exists, otherwise replaces the existing row `r` with `upd r`. -/
def dbUpsert : DB → String → ProfileRow → (ProfileRow → ProfileRow) → DB
  | [], k, ins, _ => [(k, ins)]
  | (k', r) :: rest, k, ins, upd =>
    if k' = k then (k', upd r) :: rest else (k', r) :: dbUpsert rest k ins upd

/-! ## Access guard middleware (`middleware/auth.mjs`) -/

/-- An authenticated user identity as attached by Better Auth. -/
structure Principal where
  id : String
  email : String
deriving DecidableEq

/-- The object returned by `auth.api.getSession`: it carries a `user` field
which the middleware checks separately (`!session || !session.user`). -/
structure AuthSession where
  user : Option Principal
deriving DecidableEq

/-- Outcome of the `requireAuth` middleware: either a short-circuit JSON
rejection, or the request proceeds with the session-derived principal. -/
inductive AuthResult where
  | reject (status : Nat) (error message : String)
  | proceed (user : Principal)
deriving DecidableEq

/-- `requireAuth` from `middleware/auth.mjs`.  The session verifier result is
passed in: `.error` models an exception thrown by `auth.api.getSession`
(caught and turned into a 500), `.ok none` models "no session", and a
session without a user is also rejected with 401. -/
def requireAuth (getSession : Except String (Option AuthSession)) : AuthResult :=
  match getSession with
  | .error _ =>
    .reject 500 "Authentication failed"
      "An error occurred while verifying your session"
  | .ok none =>
    .reject 401 "Unauthorized" "You must be logged in to access this resource"
  | .ok (some s) =>
    match s.user with
    | none =>
      .reject 401 "Unauthorized" "You must be logged in to access this resource"
    | some u => .proceed u

/-- Observable outcome of one request to `GET /user/profile`: HTTP status,
the structured error body (if any), whether the route handler body ran, and
how many database queries were executed. -/
structure RouteOutcome where
  status : Nat
  error : Option (String × String)
  handlerInvoked : Bool
  queriesRun : Nat
deriving DecidableEq

/-- The `GET /user/profile` route: `requireAuth` runs first; only when it
proceeds does the handler run and issue its single `SELECT`. -/
def getUserProfile (getSession : Except String (Option AuthSession))
    (db : DB) : RouteOutcome :=
  match requireAuth getSession with
  | .reject st e m =>
    { status := st, error := some (e, m), handlerInvoked := false, queriesRun := 0 }
  | .proceed u =>
    match dbLookup db u.id with
    | none =>
      { status := 404
        error := some ("Profile not found",
          "User profile does not exist. Please complete your profile setup.")
        handlerInvoked := true
        queriesRun := 1 }
    | some _ =>
      { status := 200, error := none, handlerInvoked := true, queriesRun := 1 }

/-! ## `PUT /user/profile` handler (`utils/api-handler.mjs`) -/

/-- The JSON request body of `PUT /user/profile`.  `userId` is the
client-supplied field that the handler must ignore. -/
structure PutBody where
  userId : Option String
  skillLevel : Option String
  softwareBackground : Option String
  hardwareBackground : Option String
  learningGoal : Option String
deriving DecidableEq

/-- Log events emitted by the `PUT /user/profile` handler. -/
inductive PutLog where
  | suspiciousUserId (sessionUserId attemptedUserId : String)
  | profileUpdated (userId : String)
deriving DecidableEq

/-- Observable outcome of one `PUT /user/profile` request. -/
structure PutResult where
  status : Nat
  error : Option (String × String)
  db : DB
  logs : List PutLog
deriving DecidableEq

/-- The `PUT /user/profile` handler body (after `requireAuth` has attached
the session user).  `sessionUserId` is `req.user.id`; the row key is always
this value.  A body `userId` that is truthy and differs from the session id
is logged as a suspicious request but otherwise ignored.  When all four
profile fields are falsy the request is rejected with 400 and no write is
performed; otherwise the upsert inserts a fresh row or COALESCE-merges the
supplied (non-null) values over the existing row, setting `updatedAt`. -/
def putUserProfile (sessionUserId : String) (body : PutBody) (db : DB)
    (now : Nat) : PutResult :=
  let logs0 : List PutLog :=
    match body.userId with
    | some u =>
      if u ≠ "" ∧ u ≠ sessionUserId then [.suspiciousUserId sessionUserId u]
      else []
    | none => []
  if truthy body.skillLevel || truthy body.softwareBackground ||
      truthy body.hardwareBackground || truthy body.learningGoal then
    let ins : ProfileRow :=
      { skill_level := orNull body.skillLevel
        software_background := orNull body.softwareBackground
        hardware_background := orNull body.hardwareBackground
        learning_goal := orNull body.learningGoal
        createdAt := now
        updatedAt := now }
    let upd : ProfileRow → ProfileRow := fun old =>
      { skill_level := coalesce (orNull body.skillLevel) old.skill_level
        software_background :=
          coalesce (orNull body.softwareBackground) old.software_background
        hardware_background :=
          coalesce (orNull body.hardwareBackground) old.hardware_background
        learning_goal := coalesce (orNull body.learningGoal) old.learning_goal
        createdAt := old.createdAt
        updatedAt := now }
    { status := 200
      error := none
      db := dbUpsert db sessionUserId ins upd
      logs := logs0 ++ [.profileUpdated sessionUserId] }
  else
    { status := 400
      error := some ("Invalid request", "At least one profile field must be provided")
      db := db
      logs := logs0 }

/-- The request body with its client-supplied `userId` field erased; two
bodies agree on everything the handler may use for the database write
exactly when their erasures are equal. -/
def eraseUserId (b : PutBody) : PutBody :=
  { b with userId := none }

/-! ## Rate limiters (`middleware/rate-limit.mjs`) and router wiring -/

/-- The JSON body sent by a limiter's custom 429 handler.  `retryAfter` is
present only when the handler's `res.json` includes that field. -/
structure RateLimit429 where
  error : String
  message : String
  retryAfter : Option String
deriving DecidableEq

/-- An `express-rate-limit` limiter: its window, its per-window maximum, and
the body its custom handler sends with status 429. -/
structure RateLimiter where
  windowMs : Nat
  max : Nat
  handler429 : RateLimit429
deriving DecidableEq

/-- `authRateLimiter`: 5 requests / 15 minutes; its 429 body carries a
`retryAfter` hint. -/
def authRateLimiter : RateLimiter :=
  { windowMs := 15 * 60 * 1000
    max := 5
    handler429 :=
      { error := "Too many authentication attempts"
        message := "Please try again after 15 minutes"
        retryAfter := some "15 minutes" } }

/-- `apiRateLimiter`: window and maximum come from the environment
(`RATE_LIMIT_WINDOW_MS`, `RATE_LIMIT_MAX_REQUESTS`, parsed), with defaults
900000 ms and 100 requests; its 429 handler body has no `retryAfter`. -/
def apiRateLimiter (windowMsEnv maxEnv : Option Nat) : RateLimiter :=
  { windowMs := windowMsEnv.getD 900000
    max := maxEnv.getD 100
    handler429 :=
      { error := "Too many requests"
        message := "You have exceeded the rate limit. Please try again later."
        retryAfter := none } }

/-- `passwordResetRateLimiter`: 3 requests / 1 hour; its custom 429 handler
sends only `error` and `message` (no `retryAfter` field in the JSON). -/
def passwordResetRateLimiter : RateLimiter :=
  { windowMs := 60 * 60 * 1000
    max := 3
    handler429 :=
      { error := "Too many password reset attempts"
        message := "Please try again after 1 hour"
        retryAfter := none } }

/-- Outcome of one request passing through a limiter: either it is admitted
to the downstream middleware/handler, or it is answered with the limiter's
429 response. -/
inductive LimitOutcome where
  | admitted
  | limited (status : Nat) (body : RateLimit429)
deriving DecidableEq

/-- The limiter store within one window: hit counts keyed by client
address (`req.ip`). -/
def RateState := List (String × Nat)

/-- Hits recorded for an address in the current window. -/
def hitsOf : RateState → String → Nat
  | [], _ => 0
  | (k, v) :: rest, ip => if k = ip then v else hitsOf rest ip

/-- Record one more hit for an address. -/
def bumpHits : RateState → String → RateState
  | [], ip => [(ip, 1)]
  | (k, v) :: rest, ip =>
    if k = ip then (k, v + 1) :: rest else (k, v) :: bumpHits rest ip

/-- One request from address `ip` through limiter `rl` within the current
window: the hit count is incremented, and the request is admitted exactly
when the new count does not exceed `rl.max`. -/
def rateLimitReq (rl : RateLimiter) (st : RateState) (ip : String) :
    LimitOutcome × RateState :=
  let h := hitsOf st ip + 1
  (if h ≤ rl.max then .admitted else .limited 429 rl.handler429,
   bumpHits st ip)

/-- Run a sequence of requests (one address each) through a limiter within
one window, pairing each request's address with its outcome. -/
def runLimiter (rl : RateLimiter) : RateState → List String →
    List (String × LimitOutcome)
  | _, [] => []
  | st, ip :: rest =>
    let r := rateLimitReq rl st ip
    (ip, r.1) :: runLimiter rl r.2 rest

/-- Number of requests from a given address that were admitted. -/
def admittedFor (ip : String) : List (String × LimitOutcome) → Nat
  | [] => 0
  | (k, .admitted) :: rest =>
    (if k = ip then 1 else 0) + admittedFor ip rest
  | (_, .limited _ _) :: rest => admittedFor ip rest

/-- Character-list prefix test. -/
def prefOf : List Char → List Char → Bool
  | [], _ => true
  | a :: as, s =>
    match s with
    | b :: bs => a = b && prefOf as bs
    | [] => false

/-- Express path prefix test, used to model the `'/auth/sign-in/*'` and
`'/auth/sign-up/*'` wildcard patterns. -/
def pathStartsWith (pre p : String) : Bool :=
  prefOf pre.toList p.toList

/-- The rate limiters a request with the given path passes through in
`createRouter`: `router.use(apiRateLimiter)` applies to every path, and the
`'/auth/sign-in/*'` / `'/auth/sign-up/*'` routes additionally run
`authRateLimiter`.  No route is registered with
`passwordResetRateLimiter`. -/
def routeLimiters (windowMsEnv maxEnv : Option Nat) (path : String) :
    List RateLimiter :=
  apiRateLimiter windowMsEnv maxEnv ::
    (if pathStartsWith "/auth/sign-in/" path then [authRateLimiter]
     else if pathStartsWith "/auth/sign-up/" path then [authRateLimiter]
     else [])

/-- Decidable list membership for limiters, used to state which limiters a
route passes through. -/
def limiterMem (rl : RateLimiter) : List RateLimiter → Bool
  | [] => false
  | x :: rest => if x = rl then true else limiterMem rl rest

/-! ## `POST /personalize` handler (`utils/api-handler.mjs`) -/

/-- JavaScript `\w`: ASCII letters, digits and underscore. -/
def wordChar (c : Char) : Bool :=
  c.isAlphanum || c = '_'

/-- Case-insensitive match of pattern `a` against a prefix of `s`; on
success returns the matched characters (with their original case, as the
regex `$1` capture does) and the remainder. -/
def matchCI : List Char → List Char → Option (List Char × List Char)
  | [], s => some ([], s)
  | _ :: _, [] => none
  | a :: as, c :: cs =>
    if a.toLower = c.toLower then
      match matchCI as cs with
      | some (t, r) => some (c :: t, r)
      | none => none
    else none

/-- The right-hand `\b` assertion after a match: satisfied at end of input
or when the next character is not a word character. -/
def boundaryOk : List Char → Bool
  | [] => true
  | c :: _ => !(wordChar c)

/-- Try the regex alternatives in order at the current position, requiring
the left `\b` (the previous character is not a word character) and the right
`\b` after the matched word. -/
def tryAlts (alts : List (List Char)) (prevW : Bool) (s : List Char) :
    Option (List Char × List Char) :=
  match alts with
  | [] => none
  | a :: rest =>
    match matchCI a s with
    | some (t, r) =>
      if !prevW && boundaryOk r then some (t, r) else tryAlts rest prevW s
    | none => tryAlts rest prevW s

/-- Last character of the matched word is a word character (it always is for
the fixed word alternatives); tracks the left-boundary state after a
match. -/
def lastIsWord (t : List Char) : Bool :=
  match t.getLast? with
  | some c => wordChar c
  | none => false

/-- Global scan of `String.prototype.replace` with a
`/\b(w1|w2|...)\b/gi` pattern and replacement `'$1' ++ note`: each
non-overlapping boundary-delimited occurrence of an alternative is replaced
by the matched text followed by `note`.  `fuel` bounds the scan by the input
length (each step consumes at least one character). -/
def scanReplace (alts : List (List Char)) (note : List Char) :
    Nat → Bool → List Char → List Char
  | 0, _, s => s
  | _ + 1, _, [] => []
  | fuel + 1, prevW, c :: cs =>
    match tryAlts alts prevW (c :: cs) with
    | some (t, r) => t ++ note ++ scanReplace alts note fuel (lastIsWord t) r
    | none => c :: scanReplace alts note fuel (wordChar c) cs

/-- `content.replace(/\b(alt1|alt2|...)\b/gi, '$1' + note)`. -/
def replaceAnnotate (alts : List String) (note content : String) : String :=
  let cs := content.toList
  String.mk (scanReplace (alts.map String.toList) note.toList cs.length false cs)

/-- Lower-cased copy of a string (`String.prototype.toLowerCase` on
ASCII). -/
def lowerStr (s : String) : String :=
  String.mk (s.toList.map Char.toLower)

/-- Contiguous-substring test on character lists. -/
def subOf (n : List Char) : List Char → Bool
  | [] => prefOf n []
  | c :: cs => prefOf n (c :: cs) || subOf n cs

/-- `s.toLowerCase().includes(needle)`. -/
def lowerIncludes (s needle : String) : Bool :=
  subOf needle.toList (lowerStr s).toList

/-- The personalization core of the `POST /personalize` handler: the
software-background keyword substitutions followed by the learning-goal
tailoring note. -/
def personalizeContent (profile : ProfileRow) (content : String) : String :=
  let c1 :=
    match profile.software_background with
    | some bg =>
      if lowerIncludes bg "beginner" then
        replaceAnnotate ["concept", "method", "approach"]
          " (explained for beginners)" content
      else if lowerIncludes bg "advanced" then
        replaceAnnotate ["example", "concept"] " (advanced details)" content
      else content
    | none => content
  match profile.learning_goal with
  | some g =>
    if g = "" then c1
    else
      if lowerIncludes g "ai" || lowerIncludes g "ml" then
        c1 ++ "\n\n*Tailored for AI/ML learners*"
      else if lowerIncludes g "robotics" then
        c1 ++ "\n\n*Tailored for robotics enthusiasts*"
      else c1
  | none => c1

/-- The profile fields echoed back as `userMetadata`. -/
structure UserMetadata where
  skillLevel : Option String
  softwareBackground : Option String
  hardwareBackground : Option String
  learningGoal : Option String
deriving DecidableEq

/-- Observable outcome of one `POST /personalize` request.  `userMetadata`
is `none` when the handler leaves it as the empty object `{}`. -/
structure PersonalizeResult where
  status : Nat
  error : Option (String × String)
  personalizedContent : Option String
  userMetadata : Option UserMetadata
deriving DecidableEq

/-- The `POST /personalize` handler body (after `requireAuth`): validates
that `chapterId` and `content` are truthy, loads the caller's profile row,
and personalizes the content when a row exists. -/
def postPersonalize (sessionUserId : String) (db : DB)
    (chapterId content : String) : PersonalizeResult :=
  if chapterId = "" ∨ content = "" then
    { status := 400
      error := some ("Invalid request", "Both chapterId and content are required")
      personalizedContent := none
      userMetadata := none }
  else
    match dbLookup db sessionUserId with
    | none =>
      { status := 200, error := none
        personalizedContent := some content
        userMetadata := none }
    | some profile =>
      { status := 200, error := none
        personalizedContent := some (personalizeContent profile content)
        userMetadata := some
          { skillLevel := profile.skill_level
            softwareBackground := profile.software_background
            hardwareBackground := profile.hardware_background
            learningGoal := profile.learning_goal } }

/-! ## Environment validator (`lib/env-validator.mjs`) -/

/-- The process environment: a map from variable names to values. -/
def Env := String → Option String

/-- A required environment variable with its per-key format validator, which
returns the validation error text when the value is invalid. -/
structure RequiredEnvVar where
  name : String
  description : String
  validator : String → Option String

/-- An optional environment variable with its documented default (when
any). -/
structure OptionalEnvVar where
  name : String
  description : String
  defaultVal : Option String

/-- `requiredEnvVars` from `lib/env-validator.mjs`.  URL well-formedness
(`new URL(value)` succeeding) is external runtime behaviour and is passed in
as the oracle `isURL`. -/
def requiredEnvVars (isURL : String → Bool) : List RequiredEnvVar :=
  [ { name := "DATABASE_URL"
      description := "PostgreSQL connection string (should end with -pooler for Neon)"
      validator := fun v =>
        if !(pathStartsWith "postgres://" v || pathStartsWith "postgresql://" v) then
          some "Must be a valid PostgreSQL connection string (postgres:// or postgresql://)"
        else none }
  , { name := "BETTER_AUTH_SECRET"
      description := "Secret key for signing cookies and tokens (min 32 characters)"
      validator := fun v =>
        if v.length < 32 then
          some "Must be at least 32 characters long for security"
        else none }
  , { name := "BETTER_AUTH_URL"
      description := "Base URL for the application (e.g., http://localhost:8000)"
      validator := fun v => if isURL v then none else some "Must be a valid URL" }
  , { name := "FRONTEND_URL"
      description := "Frontend URL for CORS (e.g., http://localhost:3002)"
      validator := fun v => if isURL v then none else some "Must be a valid URL" } ]

/-- `optionalEnvVars` from `lib/env-validator.mjs`. -/
def optionalEnvVars : List OptionalEnvVar :=
  [ { name := "ALLOWED_ORIGINS"
      description := "Comma-separated list of allowed CORS origins"
      defaultVal := none }
  , { name := "NODE_ENV"
      description := "Environment (development, production, test)"
      defaultVal := some "development" }
  , { name := "PORT", description := "Server port", defaultVal := some "8000" }
  , { name := "LOG_LEVEL"
      description := "Logging level (error, warn, info, debug)"
      defaultVal := some "info" }
  , { name := "RATE_LIMIT_WINDOW_MS"
      description := "Rate limit window in milliseconds"
      defaultVal := some "900000" }
  , { name := "RATE_LIMIT_MAX_REQUESTS"
      description := "Max requests per window"
      defaultVal := some "100" } ]

/-- JavaScript truthiness of `process.env[n]` (absent and empty string are
falsy). -/
def envTruthy (env : Env) (n : String) : Bool :=
  match env n with
  | some v => v ≠ ""
  | none => false

/-- Point update of the environment (`process.env[k] = v`). -/
def envUpdate (e : Env) (k v : String) : Env :=
  fun n => if n = k then some v else e n

/-- The violation (if any) recorded for one required variable: a missing or
empty value yields the "is required" line, an invalid value the
"is invalid" line. -/
def checkEnvVar (env : Env) (ev : RequiredEnvVar) : Option String :=
  match env ev.name with
  | none => some ("❌ " ++ ev.name ++ " is required: " ++ ev.description)
  | some v =>
    if v = "" then some ("❌ " ++ ev.name ++ " is required: " ++ ev.description)
    else
      match ev.validator v with
      | some err => some ("❌ " ++ ev.name ++ " is invalid: " ++ err)
      | none => none

/-- The `errors` array built by the loop over `requiredEnvVars`: one entry
per violated required variable, in order, none skipped. -/
def collectEnvErrors (isURL : String → Bool) (env : Env) : List String :=
  (requiredEnvVars isURL).filterMap (checkEnvVar env)

/-- One iteration of the defaults loop: set the documented default when the
variable is falsy and a default exists. -/
def setDefault (e : Env) (ev : OptionalEnvVar) : Env :=
  match ev.defaultVal with
  | some d => if envTruthy e ev.name then e else envUpdate e ev.name d
  | none => e

/-- The defaults loop over `optionalEnvVars`. -/
def applyDefaults (env : Env) : Env :=
  optionalEnvVars.foldl setDefault env

/-- `[...].join('\n')`. -/
def joinLines : List String → String
  | [] => ""
  | [s] => s
  | s :: rest => s ++ "\n" ++ joinLines rest

/-- The separator line of the aggregated error banner: 59 box-drawing
double-horizontal characters, as in the source literal. -/
def envBanner : String :=
  String.mk (List.replicate 59 '\u2550')

/-- The lines of the aggregated error message thrown by `validateEnv`: the
banner, every collected violation, and the expected-format listing. -/
def envErrorParts (isURL : String → Bool) (errors : List String) : List String :=
  [ "", envBanner, "  ENVIRONMENT VARIABLE VALIDATION FAILED", envBanner, "" ]
  ++ errors
  ++ [ "", "📝 Create a .env file with the following variables:", "" ]
  ++ (requiredEnvVars isURL).map
      (fun v => v.name ++ "=your_value_here  # " ++ v.description)
  ++ [ "", envBanner, "" ]

/-- `validateEnv` from `lib/env-validator.mjs`: collect all violations over
the required variables, apply the documented defaults for falsy optional
variables, then throw a single aggregated error when any violation exists,
and otherwise succeed with the defaulted environment. -/
def validateEnv (isURL : String → Bool) (env : Env) : Except String Env :=
  let errors := collectEnvErrors isURL env
  let env' := applyDefaults env
  if errors.isEmpty then .ok env'
  else .error (joinLines (envErrorParts isURL errors))

/-- Whether `validateEnv` let startup proceed. -/
def envOk (r : Except String Env) : Bool :=
  match r with
  | .ok _ => true
  | .error _ => false

/-! ## Theorems -/

/-- Once the pool slot is filled, every further call returns the memoized
pool and leaves the state untouched. -/
theorem getPoolCalls_memo (databaseUrl : Option String) (n : Nat)
    (st : PoolState) (p : Pool) (h : st.pool = some p) :
    getPoolCalls databaseUrl n st = (List.replicate n (.ok p), st) := by
  induction n with
  | zero => simp [getPoolCalls]
  | succ n ih =>
    simp [getPoolCalls, getPool, h, ih, List.replicate]

/-- C1: with the connection string present (a truthy, non-empty value, as
`if (!process.env.DATABASE_URL)` requires), any positive number of calls to
`getPool()` from a fresh module state constructs exactly one pool and every
call returns that same handle. -/
theorem getPool_singleton (url : String) (n : Nat) (st : PoolState)
    (hurl : url ≠ "") (h0 : st.pool = none) (hn : 0 < n) :
    ∃ p : Pool,
      (getPoolCalls (some url) n st).1 = List.replicate n (.ok p) ∧
      (getPoolCalls (some url) n st).2.pool = some p ∧
      (getPoolCalls (some url) n st).2.created = st.created + 1 := by
  cases n with
  | zero => exact absurd hn (by simp)
  | succ m =>
    have hmemo :=
      getPoolCalls_memo (some url) m
        { pool := some
            { id := st.created
              config :=
                { connectionString := url
                  max := 1
                  idleTimeoutMillis := 30000
                  connectionTimeoutMillis := 5000 } }
          created := st.created + 1 }
        { id := st.created
          config :=
            { connectionString := url
              max := 1
              idleTimeoutMillis := 30000
              connectionTimeoutMillis := 5000 } }
        rfl
    refine ⟨{ id := st.created
              config :=
                { connectionString := url
                  max := 1
                  idleTimeoutMillis := 30000
                  connectionTimeoutMillis := 5000 } }, ?_, ?_, ?_⟩ <;>
      simp [getPoolCalls, getPool, truthy, h0, hurl, hmemo, List.replicate]

/-- Witness for C1 at a concrete connection string, three calls and the
fresh state. -/
theorem getPool_singleton_witness :
    ("postgres://db" : String) ≠ "" ∧
    (PoolState.mk none 0).pool = none ∧ 0 < 3 ∧
      ∃ p : Pool,
        (getPoolCalls (some "postgres://db") 3 (PoolState.mk none 0)).1 =
          List.replicate 3 (.ok p) ∧
        (getPoolCalls (some "postgres://db") 3 (PoolState.mk none 0)).2.pool =
          some p ∧
        (getPoolCalls (some "postgres://db") 3 (PoolState.mk none 0)).2.created =
          (PoolState.mk none 0).created + 1 :=
  ⟨by decide, rfl, by decide,
    getPool_singleton "postgres://db" 3 (PoolState.mk none 0) (by decide) rfl
      (by decide)⟩

/-- C5: when the session verifier reports no session (or a session without a
user), the protected `GET /user/profile` route answers 401 with the
structured error body, never invokes the handler, and executes no database
query. -/
theorem requireAuth_blocks_unauthenticated :
    ∀ db : DB,
      getUserProfile (.ok none) db =
        { status := 401
          error := some ("Unauthorized",
            "You must be logged in to access this resource")
          handlerInvoked := false
          queriesRun := 0 } ∧
      getUserProfile (.ok (some (AuthSession.mk none))) db =
        { status := 401
          error := some ("Unauthorized",
            "You must be logged in to access this resource")
          handlerInvoked := false
          queriesRun := 0 } := by
  intro db
  exact ⟨rfl, rfl⟩

/-- Upserting at key `k` replaces an existing row at `k` by its update. -/
theorem dbLookup_dbUpsert_self (db : DB) (k : String) (ins : ProfileRow)
    (upd : ProfileRow → ProfileRow) (row : ProfileRow)
    (h : dbLookup db k = some row) :
    dbLookup (dbUpsert db k ins upd) k = some (upd row) := by
  induction db with
  | nil => simp [dbLookup] at h
  | cons hd tl ih =>
    obtain ⟨k', r⟩ := hd
    by_cases hk : k' = k
    · subst hk
      simp [dbLookup] at h
      simp [dbUpsert, dbLookup, h]
    · simp [dbLookup, hk] at h
      simp [dbUpsert, dbLookup, hk, ih h]

/-- Upserting at key `k` leaves every other key's row unchanged. -/
theorem dbLookup_dbUpsert_ne (db : DB) (k : String) (ins : ProfileRow)
    (upd : ProfileRow → ProfileRow) (k' : String) (h : k' ≠ k) :
    dbLookup (dbUpsert db k ins upd) k' = dbLookup db k' := by
  induction db with
  | nil => simp [dbUpsert, dbLookup, Ne.symm h]
  | cons hd tl ih =>
    obtain ⟨k0, r⟩ := hd
    by_cases hk : k0 = k
    · subst hk
      simp [dbUpsert, dbLookup, Ne.symm h]
    · simp [dbUpsert, dbLookup, hk, ih]

/-- C2: the `PUT /user/profile` write is keyed by the session-derived id
only: two bodies differing only in the client-supplied `userId` produce the
same database state and status, no key other than the session id is
touched, and a truthy body `userId` differing from the session id is logged
as a suspicious request without changing the outcome. -/
theorem putUserProfile_session_key (sid : String) (b1 b2 : PutBody) (db : DB)
    (now : Nat) (h : eraseUserId b1 = eraseUserId b2) :
    (putUserProfile sid b1 db now).db = (putUserProfile sid b2 db now).db ∧
    (putUserProfile sid b1 db now).status =
      (putUserProfile sid b2 db now).status ∧
    (∀ k, k ≠ sid →
      dbLookup (putUserProfile sid b1 db now).db k = dbLookup db k) ∧
    (∀ u, b1.userId = some u → u ≠ "" → u ≠ sid →
      PutLog.suspiciousUserId sid u ∈ (putUserProfile sid b1 db now).logs) := by
  obtain ⟨u1, s1, sw1, hw1, l1⟩ := b1
  obtain ⟨u2, s2, sw2, hw2, l2⟩ := b2
  simp only [eraseUserId, PutBody.mk.injEq, true_and] at h
  obtain ⟨h1, h2, h3, h4⟩ := h
  subst h1 h2 h3 h4
  refine ⟨?_, ?_, ?_, ?_⟩
  · by_cases hc : (truthy s1 || truthy sw1 || truthy hw1 || truthy l1) = true
    · simp [putUserProfile, hc]
    · simp [putUserProfile, hc]
  · by_cases hc : (truthy s1 || truthy sw1 || truthy hw1 || truthy l1) = true
    · simp [putUserProfile, hc]
    · simp [putUserProfile, hc]
  · intro k hk
    by_cases hc : (truthy s1 || truthy sw1 || truthy hw1 || truthy l1) = true
    · simp [putUserProfile, hc, dbLookup_dbUpsert_ne db sid _ _ k hk]
    · simp [putUserProfile, hc]
  · intro u hu hne hnesid
    have hu' : u1 = some u := hu
    subst hu'
    by_cases hc : (truthy s1 || truthy sw1 || truthy hw1 || truthy l1) = true
    · simp [putUserProfile, hne, hnesid, hc]
    · simp [putUserProfile, hne, hnesid, hc]

/-- Witness for C2: principal `alice` sends `{userId: "other-user",
skillLevel: "x"}`; the write equals the one for the same body without
`userId`, only `alice`'s key is touched, and the suspicious event is
logged. -/
theorem putUserProfile_session_key_witness :
    eraseUserId
        { userId := some "other-user", skillLevel := some "x"
          softwareBackground := none, hardwareBackground := none
          learningGoal := none } =
      eraseUserId
        { userId := none, skillLevel := some "x"
          softwareBackground := none, hardwareBackground := none
          learningGoal := none } ∧
    ((putUserProfile "alice"
        { userId := some "other-user", skillLevel := some "x"
          softwareBackground := none, hardwareBackground := none
          learningGoal := none } [] 0).db =
      (putUserProfile "alice"
        { userId := none, skillLevel := some "x"
          softwareBackground := none, hardwareBackground := none
          learningGoal := none } [] 0).db ∧
    (putUserProfile "alice"
        { userId := some "other-user", skillLevel := some "x"
          softwareBackground := none, hardwareBackground := none
          learningGoal := none } [] 0).status =
      (putUserProfile "alice"
        { userId := none, skillLevel := some "x"
          softwareBackground := none, hardwareBackground := none
          learningGoal := none } [] 0).status ∧
    (∀ k, k ≠ "alice" →
      dbLookup (putUserProfile "alice"
        { userId := some "other-user", skillLevel := some "x"
          softwareBackground := none, hardwareBackground := none
          learningGoal := none } [] 0).db k = dbLookup [] k) ∧
    (∀ u, (some "other-user" : Option String) = some u → u ≠ "" → u ≠ "alice" →
      PutLog.suspiciousUserId "alice" u ∈ (putUserProfile "alice"
        { userId := some "other-user", skillLevel := some "x"
          softwareBackground := none, hardwareBackground := none
          learningGoal := none } [] 0).logs)) :=
  ⟨rfl, putUserProfile_session_key "alice"
    { userId := some "other-user", skillLevel := some "x"
      softwareBackground := none, hardwareBackground := none
      learningGoal := none }
    { userId := none, skillLevel := some "x"
      softwareBackground := none, hardwareBackground := none
      learningGoal := none } [] 0 rfl⟩

/-- C3: on a principal with an existing profile row, a `PUT /user/profile`
upsert supplying a subset of the four fields succeeds with 200 and produces
a row that keeps the stored value of every unsupplied (falsy) field, sets
every supplied field, keeps `createdAt`, and sets `updatedAt` to the write
time. -/
theorem putUserProfile_merge_keeps_unsupplied (sid : String) (b : PutBody) (db : DB)
    (row : ProfileRow) (now : Nat)
    (hrow : dbLookup db sid = some row)
    (hvalid : (truthy b.skillLevel || truthy b.softwareBackground ||
      truthy b.hardwareBackground || truthy b.learningGoal) = true) :
    (putUserProfile sid b db now).status = 200 ∧
    ∃ newRow : ProfileRow,
      dbLookup (putUserProfile sid b db now).db sid = some newRow ∧
      (truthy b.skillLevel = false → newRow.skill_level = row.skill_level) ∧
      (∀ s, b.skillLevel = some s → s ≠ "" → newRow.skill_level = some s) ∧
      (truthy b.softwareBackground = false →
        newRow.software_background = row.software_background) ∧
      (∀ s, b.softwareBackground = some s → s ≠ "" →
        newRow.software_background = some s) ∧
      (truthy b.hardwareBackground = false →
        newRow.hardware_background = row.hardware_background) ∧
      (∀ s, b.hardwareBackground = some s → s ≠ "" →
        newRow.hardware_background = some s) ∧
      (truthy b.learningGoal = false → newRow.learning_goal = row.learning_goal) ∧
      (∀ s, b.learningGoal = some s → s ≠ "" → newRow.learning_goal = some s) ∧
      newRow.createdAt = row.createdAt ∧
      newRow.updatedAt = now := by
  constructor
  · simp [putUserProfile, hvalid]
  · refine ⟨{ skill_level := coalesce (orNull b.skillLevel) row.skill_level
              software_background :=
                coalesce (orNull b.softwareBackground) row.software_background
              hardware_background :=
                coalesce (orNull b.hardwareBackground) row.hardware_background
              learning_goal := coalesce (orNull b.learningGoal) row.learning_goal
              createdAt := row.createdAt
              updatedAt := now }, ?_, ?_, ?_, ?_, ?_, ?_, ?_, ?_, ?_, rfl, rfl⟩
    · simp only [putUserProfile, hvalid, if_true]
      rw [dbLookup_dbUpsert_self db sid _ _ row hrow]
    · intro hf
      simp [orNull, hf, coalesce]
    · intro s hs hne
      simp [orNull, truthy, hs, hne, coalesce]
    · intro hf
      simp [orNull, hf, coalesce]
    · intro s hs hne
      simp [orNull, truthy, hs, hne, coalesce]
    · intro hf
      simp [orNull, hf, coalesce]
    · intro s hs hne
      simp [orNull, truthy, hs, hne, coalesce]
    · intro hf
      simp [orNull, hf, coalesce]
    · intro s hs hne
      simp [orNull, truthy, hs, hne, coalesce]

/-- Witness for C3: a row created with only `learningGoal` set, then upserted
with only `skillLevel`, keeps the learning goal and updates the skill level
and timestamp. -/
theorem putUserProfile_merge_keeps_unsupplied_witness :
    dbLookup [("alice",
        { skill_level := none, software_background := none
          hardware_background := none, learning_goal := some "robotics"
          createdAt := 1, updatedAt := 1 })] "alice" = some
        { skill_level := none, software_background := none
          hardware_background := none, learning_goal := some "robotics"
          createdAt := 1, updatedAt := 1 } ∧
    (truthy (some "advanced") || truthy none || truthy none || truthy none)
      = true ∧
    ((putUserProfile "alice"
        { userId := none, skillLevel := some "advanced"
          softwareBackground := none, hardwareBackground := none
          learningGoal := none }
        [("alice",
          { skill_level := none, software_background := none
            hardware_background := none, learning_goal := some "robotics"
            createdAt := 1, updatedAt := 1 })] 2).status = 200 ∧
      ∃ newRow : ProfileRow,
        dbLookup (putUserProfile "alice"
          { userId := none, skillLevel := some "advanced"
            softwareBackground := none, hardwareBackground := none
            learningGoal := none }
          [("alice",
            { skill_level := none, software_background := none
              hardware_background := none, learning_goal := some "robotics"
              createdAt := 1, updatedAt := 1 })] 2).db "alice" = some newRow ∧
        (truthy (some "advanced") = false → newRow.skill_level = none) ∧
        (∀ s, (some "advanced" : Option String) = some s → s ≠ "" →
          newRow.skill_level = some s) ∧
        (truthy (none : Option String) = false →
          newRow.software_background = none) ∧
        (∀ s, (none : Option String) = some s → s ≠ "" →
          newRow.software_background = some s) ∧
        (truthy (none : Option String) = false →
          newRow.hardware_background = none) ∧
        (∀ s, (none : Option String) = some s → s ≠ "" →
          newRow.hardware_background = some s) ∧
        (truthy (none : Option String) = false →
          newRow.learning_goal = some "robotics") ∧
        (∀ s, (none : Option String) = some s → s ≠ "" →
          newRow.learning_goal = some s) ∧
        newRow.createdAt = 1 ∧
        newRow.updatedAt = 2) :=
  ⟨by decide, by decide,
    putUserProfile_merge_keeps_unsupplied "alice"
      { userId := none, skillLevel := some "advanced"
        softwareBackground := none, hardwareBackground := none
        learningGoal := none }
      [("alice",
        { skill_level := none, software_background := none
          hardware_background := none, learning_goal := some "robotics"
          createdAt := 1, updatedAt := 1 })]
      { skill_level := none, software_background := none
        hardware_background := none, learning_goal := some "robotics"
        createdAt := 1, updatedAt := 1 } 2 (by decide) (by decide)⟩

/-- C4: a `PUT /user/profile` body supplying none of the four profile fields
is rejected with a 400 validation error and the table is left unchanged. -/
theorem putUserProfile_rejects_empty (sid : String) (b : PutBody) (db : DB)
    (now : Nat) (h1 : b.skillLevel = none) (h2 : b.softwareBackground = none)
    (h3 : b.hardwareBackground = none) (h4 : b.learningGoal = none) :
    (putUserProfile sid b db now).status = 400 ∧
    (putUserProfile sid b db now).error =
      some ("Invalid request", "At least one profile field must be provided") ∧
    (putUserProfile sid b db now).db = db := by
  simp [putUserProfile, h1, h2, h3, h4, truthy]

/-- Witness for C4 at a body with all four fields absent. -/
theorem putUserProfile_rejects_empty_witness :
    (PutBody.mk (some "alice") none none none none).skillLevel = none ∧
    (PutBody.mk (some "alice") none none none none).softwareBackground = none ∧
    (PutBody.mk (some "alice") none none none none).hardwareBackground = none ∧
    (PutBody.mk (some "alice") none none none none).learningGoal = none ∧
    ((putUserProfile "alice" (PutBody.mk (some "alice") none none none none)
        [] 7).status = 400 ∧
      (putUserProfile "alice" (PutBody.mk (some "alice") none none none none)
        [] 7).error =
        some ("Invalid request", "At least one profile field must be provided") ∧
      (putUserProfile "alice" (PutBody.mk (some "alice") none none none none)
        [] 7).db = []) :=
  ⟨rfl, rfl, rfl, rfl,
    putUserProfile_rejects_empty "alice"
      (PutBody.mk (some "alice") none none none none) [] 7 rfl rfl rfl rfl⟩

/-- C10: at the `PUT /user/profile` interface an empty-string field is
treated as not supplied: a body whose four fields are each absent or empty
is rejected with 400 without a write, and on an upsert over an existing row
a field supplied as `""` never overwrites the stored value. -/
theorem putUserProfile_empty_string_fields (sid : String) (b1 b2 : PutBody)
    (db1 db2 : DB) (row : ProfileRow) (now : Nat)
    (e1 : truthy b1.skillLevel = false)
    (e2 : truthy b1.softwareBackground = false)
    (e3 : truthy b1.hardwareBackground = false)
    (e4 : truthy b1.learningGoal = false)
    (hrow : dbLookup db2 sid = some row)
    (hv : (truthy b2.skillLevel || truthy b2.softwareBackground ||
      truthy b2.hardwareBackground || truthy b2.learningGoal) = true) :
    ((putUserProfile sid b1 db1 now).status = 400 ∧
      (putUserProfile sid b1 db1 now).db = db1) ∧
    ∃ newRow : ProfileRow,
      dbLookup (putUserProfile sid b2 db2 now).db sid = some newRow ∧
      (b2.skillLevel = some "" → newRow.skill_level = row.skill_level) ∧
      (b2.softwareBackground = some "" →
        newRow.software_background = row.software_background) ∧
      (b2.hardwareBackground = some "" →
        newRow.hardware_background = row.hardware_background) ∧
      (b2.learningGoal = some "" →
        newRow.learning_goal = row.learning_goal) := by
  constructor
  · constructor
    · simp [putUserProfile, e1, e2, e3, e4]
    · simp [putUserProfile, e1, e2, e3, e4]
  · refine ⟨{ skill_level := coalesce (orNull b2.skillLevel) row.skill_level
              software_background :=
                coalesce (orNull b2.softwareBackground) row.software_background
              hardware_background :=
                coalesce (orNull b2.hardwareBackground) row.hardware_background
              learning_goal := coalesce (orNull b2.learningGoal) row.learning_goal
              createdAt := row.createdAt
              updatedAt := now }, ?_, ?_, ?_, ?_, ?_⟩
    · simp only [putUserProfile, hv, if_true]
      rw [dbLookup_dbUpsert_self db2 sid _ _ row hrow]
    · intro hs
      simp [orNull, truthy, hs, coalesce]
    · intro hs
      simp [orNull, truthy, hs, coalesce]
    · intro hs
      simp [orNull, truthy, hs, coalesce]
    · intro hs
      simp [orNull, truthy, hs, coalesce]

/-- Witness for C10: a body of four empty strings is rejected, and a body
with `skillLevel: ""` plus a real `learningGoal` keeps the stored
`skillLevel`. -/
theorem putUserProfile_empty_string_fields_witness :
    truthy (PutBody.mk none (some "") (some "") (some "") (some "")).skillLevel
        = false ∧
    truthy (PutBody.mk none (some "") (some "") (some "")
        (some "")).softwareBackground = false ∧
    truthy (PutBody.mk none (some "") (some "") (some "")
        (some "")).hardwareBackground = false ∧
    truthy (PutBody.mk none (some "") (some "") (some "")
        (some "")).learningGoal = false ∧
    dbLookup [("alice",
        { skill_level := some "expert", software_background := none
          hardware_background := none, learning_goal := none
          createdAt := 1, updatedAt := 1 })] "alice" = some
        { skill_level := some "expert", software_background := none
          hardware_background := none, learning_goal := none
          createdAt := 1, updatedAt := 1 } ∧
    (truthy (PutBody.mk none (some "") none none (some "robotics")).skillLevel ||
      truthy (PutBody.mk none (some "") none none
        (some "robotics")).softwareBackground ||
      truthy (PutBody.mk none (some "") none none
        (some "robotics")).hardwareBackground ||
      truthy (PutBody.mk none (some "") none none
        (some "robotics")).learningGoal) = true ∧
    (((putUserProfile "alice" (PutBody.mk none (some "") (some "") (some "")
          (some "")) [] 3).status = 400 ∧
        (putUserProfile "alice" (PutBody.mk none (some "") (some "") (some "")
          (some "")) [] 3).db = []) ∧
      ∃ newRow : ProfileRow,
        dbLookup (putUserProfile "alice"
          (PutBody.mk none (some "") none none (some "robotics"))
          [("alice",
            { skill_level := some "expert", software_background := none
              hardware_background := none, learning_goal := none
              createdAt := 1, updatedAt := 1 })] 3).db "alice" = some newRow ∧
        ((PutBody.mk none (some "") none none (some "robotics")).skillLevel =
            some "" → newRow.skill_level = some "expert") ∧
        ((PutBody.mk none (some "") none none
            (some "robotics")).softwareBackground = some "" →
          newRow.software_background = none) ∧
        ((PutBody.mk none (some "") none none
            (some "robotics")).hardwareBackground = some "" →
          newRow.hardware_background = none) ∧
        ((PutBody.mk none (some "") none none (some "robotics")).learningGoal =
            some "" → newRow.learning_goal = none)) :=
  ⟨rfl, rfl, rfl, rfl, by decide, by decide,
    putUserProfile_empty_string_fields "alice"
      (PutBody.mk none (some "") (some "") (some "") (some ""))
      (PutBody.mk none (some "") none none (some "robotics")) []
      [("alice",
        { skill_level := some "expert", software_background := none
          hardware_background := none, learning_goal := none
          createdAt := 1, updatedAt := 1 })]
      { skill_level := some "expert", software_background := none
        hardware_background := none, learning_goal := none
        createdAt := 1, updatedAt := 1 } 3
      rfl rfl rfl rfl (by decide) (by decide)⟩

/-- Recording a hit for an address increments that address's count. -/
theorem hitsOf_bumpHits_self (st : RateState) (ip : String) :
    hitsOf (bumpHits st ip) ip = hitsOf st ip + 1 := by
  induction st with
  | nil => simp [bumpHits, hitsOf]
  | cons hd tl ih =>
    obtain ⟨k, v⟩ := hd
    by_cases hk : k = ip
    · subst hk
      simp [bumpHits, hitsOf]
    · simp [bumpHits, hitsOf, hk, ih]

/-- Recording a hit for one address leaves every other address's count
unchanged. -/
theorem hitsOf_bumpHits_ne (st : RateState) (ip k : String) (h : k ≠ ip) :
    hitsOf (bumpHits st ip) k = hitsOf st k := by
  induction st with
  | nil => simp [bumpHits, hitsOf, Ne.symm h]
  | cons hd tl ih =>
    obtain ⟨k0, v⟩ := hd
    by_cases hk : k0 = ip
    · subst hk
      simp [bumpHits, hitsOf, Ne.symm h]
    · simp [bumpHits, hitsOf, hk, ih]

/-- Within one window a limiter admits at most `max` minus the hits already
recorded for an address, whatever the request sequence. -/
theorem admittedFor_bound (rl : RateLimiter) (ip : String) :
    ∀ ips : List String, ∀ st : RateState,
      admittedFor ip (runLimiter rl st ips) ≤ rl.max - hitsOf st ip := by
  intro ips
  induction ips with
  | nil =>
    intro st
    simp [runLimiter, admittedFor]
  | cons ip' rest ih =>
    intro st
    by_cases hadm : hitsOf st ip' + 1 ≤ rl.max
    · by_cases hip : ip' = ip
      · subst hip
        have h2 := ih (bumpHits st ip')
        rw [hitsOf_bumpHits_self] at h2
        simp only [runLimiter, rateLimitReq, if_pos hadm, admittedFor,
          if_pos rfl, if_true]
        omega
      · have h2 := ih (bumpHits st ip')
        rw [hitsOf_bumpHits_ne st ip' ip (fun hh => hip hh.symm)] at h2
        simp only [runLimiter, rateLimitReq, if_pos hadm, admittedFor,
          if_neg hip]
        omega
    · have h2 := ih (bumpHits st ip')
      by_cases hip : ip' = ip
      · subst hip
        rw [hitsOf_bumpHits_self] at h2
        simp only [runLimiter, rateLimitReq, if_neg hadm, admittedFor]
        omega
      · rw [hitsOf_bumpHits_ne st ip' ip (fun hh => hip hh.symm)] at h2
        simp only [runLimiter, rateLimitReq, if_neg hadm, admittedFor]
        omega

/-- C6: within one strict window, six sign-in requests from one address see
the first five admitted and the sixth answered 429 with the retry hint; the
auth limiter never admits more than 5 requests per address per window, its
window is 15 minutes, and the `/auth/sign-in/*` route is wired through
it. -/
theorem authRateLimiter_bounds :
    (∀ ip : String,
      runLimiter authRateLimiter [] [ip, ip, ip, ip, ip, ip] =
        [(ip, .admitted), (ip, .admitted), (ip, .admitted), (ip, .admitted),
          (ip, .admitted),
          (ip, .limited 429
            { error := "Too many authentication attempts"
              message := "Please try again after 15 minutes"
              retryAfter := some "15 minutes" })]) ∧
    (∀ (ip : String) (ips : List String),
      admittedFor ip (runLimiter authRateLimiter [] ips) ≤ 5) ∧
    authRateLimiter.windowMs = 900000 ∧
    authRateLimiter.max = 5 ∧
    (∀ windowMsEnv maxEnv : Option Nat,
      limiterMem authRateLimiter
        (routeLimiters windowMsEnv maxEnv "/auth/sign-in/email") = true) := by
  refine ⟨?_, ?_, rfl, rfl, ?_⟩
  · intro ip
    simp [runLimiter, rateLimitReq, hitsOf, bumpHits, authRateLimiter]
  · intro ip ips
    have h := admittedFor_bound authRateLimiter ip ips []
    simpa [hitsOf, authRateLimiter] using h
  · intro we me
    have hp : pathStartsWith "/auth/sign-in/" "/auth/sign-in/email" = true := by
      decide
    by_cases h : apiRateLimiter we me = authRateLimiter
    · simp [routeLimiters, hp, limiterMem, h]
    · simp [routeLimiters, hp, limiterMem, h]

/-- Counterexample to C7 as stated: a credential-reset path passes only the
general API limiter — the very strict limiter is not among its limiters —
and a fourth rapid request from one address on that path within a window is
still admitted rather than answered 429. -/
theorem passwordResetRateLimiter_claim_false :
    routeLimiters none none "/auth/forget-password" =
      [apiRateLimiter none none] ∧
    limiterMem passwordResetRateLimiter
      (routeLimiters none none "/auth/forget-password") = false ∧
    runLimiter (apiRateLimiter none none) []
        ["1.2.3.4", "1.2.3.4", "1.2.3.4", "1.2.3.4"] =
      [("1.2.3.4", .admitted), ("1.2.3.4", .admitted), ("1.2.3.4", .admitted),
        ("1.2.3.4", .admitted)] := by
  decide

/-- C7 (amended): `passwordResetRateLimiter` is configured very strict —
3 requests per 60-minute window, answering 429 with the try-again-after-one-
hour message, never admitting more than 3 per address per window — but
`createRouter` wires it to no route, so requests to credential-reset routes
pass only the general API limiter. -/
theorem passwordResetRateLimiter_unwired :
    passwordResetRateLimiter.windowMs = 3600000 ∧
    passwordResetRateLimiter.max = 3 ∧
    (∀ (ip : String) (ips : List String),
      admittedFor ip (runLimiter passwordResetRateLimiter [] ips) ≤ 3) ∧
    (∀ ip : String,
      runLimiter passwordResetRateLimiter [] [ip, ip, ip, ip] =
        [(ip, .admitted), (ip, .admitted), (ip, .admitted),
          (ip, .limited 429
            { error := "Too many password reset attempts"
              message := "Please try again after 1 hour"
              retryAfter := none })]) ∧
    (∀ (windowMsEnv maxEnv : Option Nat) (path : String),
      limiterMem passwordResetRateLimiter
        (routeLimiters windowMsEnv maxEnv path) = false) := by
  refine ⟨rfl, rfl, ?_, ?_, ?_⟩
  · intro ip ips
    have h := admittedFor_bound passwordResetRateLimiter ip ips []
    simpa [hitsOf, passwordResetRateLimiter] using h
  · intro ip
    simp [runLimiter, rateLimitReq, hitsOf, bumpHits, passwordResetRateLimiter]
  · intro we me p
    have h1 : apiRateLimiter we me ≠ passwordResetRateLimiter := by
      intro h
      have h429 : ({ error := "Too many requests"
                     message :=
                       "You have exceeded the rate limit. Please try again later."
                     retryAfter := none } : RateLimit429) =
          { error := "Too many password reset attempts"
            message := "Please try again after 1 hour"
            retryAfter := none } := congrArg RateLimiter.handler429 h
      exact absurd h429 (by decide)
    have h2 : authRateLimiter ≠ passwordResetRateLimiter := by decide
    simp only [routeLimiters]
    split_ifs <;> simp [limiterMem, h1, h2]

/-- C8: for a principal whose profile's software background contains
"beginner" (case-insensitively, with no learning goal set), personalizing
"This concept is important" annotates "concept" as explained for beginners;
for a principal with no profile row, the returned content equals the input
exactly and the returned metadata is empty. -/
theorem personalize_beginner_and_absent (sid ch content bg : String)
    (db1 db2 : DB) (row : ProfileRow)
    (hch : ch ≠ "") (hc : content ≠ "")
    (h1 : dbLookup db1 sid = some row)
    (hbg : row.software_background = some bg)
    (hbeg : lowerIncludes bg "beginner" = true)
    (hlg : row.learning_goal = none)
    (h2 : dbLookup db2 sid = none) :
    (postPersonalize sid db1 ch "This concept is important").personalizedContent
        = some "This concept (explained for beginners) is important" ∧
    (postPersonalize sid db2 ch content).personalizedContent = some content ∧
    (postPersonalize sid db2 ch content).userMetadata = none := by
  refine ⟨?_, ?_, ?_⟩
  · have hne : ("This concept is important" : String) ≠ "" := by decide
    simp only [postPersonalize, h1, hch, hne, or_self, if_neg, if_false,
      personalizeContent, hbg, hbeg, hlg, if_true]
    simp [hch, hne, personalizeContent, hbg, hbeg, hlg]
    decide
  · simp [postPersonalize, h2, hch, hc]
  · simp [postPersonalize, h2, hch, hc]

/-- Witness for C8 with a concrete beginner profile and an empty table. -/
theorem personalize_beginner_and_absent_witness :
    ("ch1" : String) ≠ "" ∧ ("Hello" : String) ≠ "" ∧
    dbLookup [("u1",
        { skill_level := none, software_background := some "beginner developer"
          hardware_background := none, learning_goal := none
          createdAt := 0, updatedAt := 0 })] "u1" = some
        { skill_level := none, software_background := some "beginner developer"
          hardware_background := none, learning_goal := none
          createdAt := 0, updatedAt := 0 } ∧
    (ProfileRow.mk none (some "beginner developer") none none 0
        0).software_background = some "beginner developer" ∧
    lowerIncludes "beginner developer" "beginner" = true ∧
    (ProfileRow.mk none (some "beginner developer") none none 0
        0).learning_goal = none ∧
    dbLookup [] "u1" = none ∧
    ((postPersonalize "u1"
        [("u1",
          { skill_level := none, software_background := some "beginner developer"
            hardware_background := none, learning_goal := none
            createdAt := 0, updatedAt := 0 })]
        "ch1" "This concept is important").personalizedContent =
      some "This concept (explained for beginners) is important" ∧
    (postPersonalize "u1" [] "ch1" "Hello").personalizedContent = some "Hello" ∧
    (postPersonalize "u1" [] "ch1" "Hello").userMetadata = none) :=
  ⟨by decide, by decide, by decide, rfl, by decide, rfl, rfl,
    personalize_beginner_and_absent "u1" "ch1" "Hello" "beginner developer"
      [("u1",
        { skill_level := none, software_background := some "beginner developer"
          hardware_background := none, learning_goal := none
          createdAt := 0, updatedAt := 0 })] []
      (ProfileRow.mk none (some "beginner developer") none none 0 0)
      (by decide) (by decide) (by decide) rfl (by decide) rfl rfl⟩

/-- A list is a prefix of itself followed by anything. -/
theorem prefOf_append_self : ∀ n z : List Char, prefOf n (n ++ z) = true := by
  intro n
  induction n with
  | nil =>
    intro z
    rfl
  | cons a as ih =>
    intro z
    simp [prefOf, ih]

/-- A prefix occurrence is a substring occurrence. -/
theorem subOf_of_prefOf (n h : List Char) (hp : prefOf n h = true) :
    subOf n h = true := by
  cases h with
  | nil => simpa [subOf] using hp
  | cons c cs => simp [subOf, hp]

/-- A substring occurrence survives prepending. -/
theorem subOf_append_left (n t h : List Char) (hs : subOf n t = true) :
    subOf n (h ++ t) = true := by
  induction h with
  | nil => simpa using hs
  | cons c cs ih =>
    show subOf n (c :: (cs ++ t)) = true
    simp [subOf, ih]

/-- Every element of a joined line list occurs as a substring of the join. -/
theorem subOf_joinLines_of_mem (e : String) :
    ∀ l : List String, e ∈ l → subOf e.toList (joinLines l).toList = true := by
  intro l
  induction l with
  | nil =>
    intro h
    simp at h
  | cons s rest ih =>
    intro hmem
    rcases List.mem_cons.mp hmem with he | he
    · subst he
      cases rest with
      | nil =>
        have hp : prefOf e.toList (e.toList ++ []) = true := prefOf_append_self _ _
        rw [List.append_nil] at hp
        exact subOf_of_prefOf _ _ hp
      | cons r rs =>
        rw [show (joinLines (e :: r :: rs)).toList =
          e.toList ++ ['\n'] ++ (joinLines (r :: rs)).toList from rfl]
        rw [List.append_assoc]
        exact subOf_of_prefOf _ _ (prefOf_append_self _ _)
    · cases rest with
      | nil => simp at he
      | cons r rs =>
        have hs := ih he
        rw [show (joinLines (s :: r :: rs)).toList =
          (s.toList ++ ['\n']) ++ (joinLines (r :: rs)).toList from rfl]
        exact subOf_append_left _ _ _ hs

/-- One defaults-loop step leaves every other variable name untouched. -/
theorem setDefault_pres (e : Env) (ev : OptionalEnvVar) (n : String)
    (h : n ≠ ev.name) : setDefault e ev n = e n := by
  unfold setDefault
  cases hd : ev.defaultVal with
  | none => rfl
  | some d =>
    by_cases ht : envTruthy e ev.name = true
    · simp [ht]
    · simp [ht, envUpdate, h]

/-- One defaults-loop step preserves truthiness of every other variable. -/
theorem envTruthy_setDefault_pres (e : Env) (ev : OptionalEnvVar) (n : String)
    (h : n ≠ ev.name) : envTruthy (setDefault e ev) n = envTruthy e n := by
  unfold envTruthy
  rw [setDefault_pres e ev n h]

/-- One defaults-loop step sets a falsy variable to its default. -/
theorem setDefault_self (e : Env) (ev : OptionalEnvVar) (d : String)
    (hd : ev.defaultVal = some d) (hf : envTruthy e ev.name = false) :
    setDefault e ev ev.name = some d := by
  simp [setDefault, hd, hf, envUpdate]

/-- The defaults loop leaves names it never visits untouched. -/
theorem foldl_setDefault_untouched :
    ∀ (l : List OptionalEnvVar) (e : Env) (n : String),
      (∀ v ∈ l, v.name ≠ n) → (l.foldl setDefault e) n = e n := by
  intro l
  induction l with
  | nil =>
    intro e n _
    rfl
  | cons v vs ih =>
    intro e n h
    rw [List.foldl_cons, ih (setDefault e v) n (fun v' hv' => h v' (by simp [hv']))]
    exact setDefault_pres e v n (fun hn => h v (by simp) hn.symm)

/-- The defaults loop sets each falsy optional variable with a default to
that default (given the variable names are distinct). -/
theorem foldl_setDefault_mem :
    ∀ (l : List OptionalEnvVar) (e : Env) (ev : OptionalEnvVar) (d : String),
      ev ∈ l → ev.defaultVal = some d →
      (l.map OptionalEnvVar.name).Nodup →
      envTruthy e ev.name = false →
      (l.foldl setDefault e) ev.name = some d := by
  intro l
  induction l with
  | nil =>
    intro e ev d hmem
    simp at hmem
  | cons v vs ih =>
    intro e ev d hmem hd hnd hf
    rw [List.map_cons, List.nodup_cons] at hnd
    rcases List.mem_cons.mp hmem with he | he
    · subst he
      rw [List.foldl_cons]
      rw [foldl_setDefault_untouched vs (setDefault e ev) ev.name ?hne]
      · exact setDefault_self e ev d hd hf
      case hne =>
        intro v' hv' hn
        exact hnd.1 (hn ▸ List.mem_map_of_mem OptionalEnvVar.name hv')
    · have hvne : v.name ≠ ev.name := by
        intro hn
        exact hnd.1 (hn ▸ List.mem_map_of_mem OptionalEnvVar.name he)
      rw [List.foldl_cons]
      exact ih (setDefault e v) ev d he hd hnd.2
        (by rw [envTruthy_setDefault_pres e v ev.name (fun hn => hvne hn.symm)]
            exact hf)

/-- C9: `validateEnv` succeeds exactly when no required-variable violation
exists; on success it returns the defaulted environment; on failure the
single aggregated message contains every collected violation; the
violation collection covers every required variable (none is skipped after
an earlier failure); and every falsy optional variable with a documented
default is set to that default. -/
theorem validateEnv_props (isURL : String → Bool) (env : Env) :
    envOk (validateEnv isURL env) = (collectEnvErrors isURL env).isEmpty ∧
    (collectEnvErrors isURL env = [] →
      validateEnv isURL env = .ok (applyDefaults env)) ∧
    (∀ msg, validateEnv isURL env = .error msg →
      ∀ e ∈ collectEnvErrors isURL env, subOf e.toList msg.toList = true) ∧
    (∀ ev ∈ requiredEnvVars isURL, ∀ m, checkEnvVar env ev = some m →
      m ∈ collectEnvErrors isURL env) ∧
    (∀ ev ∈ optionalEnvVars, ∀ d, ev.defaultVal = some d →
      envTruthy env ev.name = false → applyDefaults env ev.name = some d) := by
  refine ⟨?_, ?_, ?_, ?_, ?_⟩
  · by_cases h : (collectEnvErrors isURL env).isEmpty = true
    · simp [validateEnv, envOk, h]
    · simp [validateEnv, envOk, h]
  · intro h
    simp [validateEnv, h]
  · intro msg hmsg e he
    by_cases h : (collectEnvErrors isURL env).isEmpty = true
    · simp [validateEnv, h] at hmsg
    · simp only [validateEnv, h, if_false, Bool.false_eq_true, if_neg,
        not_false_iff] at hmsg
      have hm : msg = joinLines (envErrorParts isURL (collectEnvErrors isURL env)) := by
        cases hmsg
        rfl
      subst hm
      refine subOf_joinLines_of_mem e _ ?_
      simp [envErrorParts, he]
  · intro ev hev m hm
    exact List.mem_filterMap.mpr ⟨ev, hev, hm⟩
  · intro ev hev d hd hf
    exact foldl_setDefault_mem optionalEnvVars env ev d hev hd (by decide) hf

/-- Witness for C9: a fully valid environment passes validation, and the
`NODE_ENV` default is applied. -/
theorem validateEnv_props_witness :
    collectEnvErrors (fun _ => true)
        (fun n => if n = "DATABASE_URL" then some "postgres://db"
          else if n = "BETTER_AUTH_SECRET" then
            some "0123456789abcdef0123456789abcdef"
          else if n = "BETTER_AUTH_URL" then some "http://localhost:8000"
          else if n = "FRONTEND_URL" then some "http://localhost:3002"
          else none) = [] ∧
    validateEnv (fun _ => true)
        (fun n => if n = "DATABASE_URL" then some "postgres://db"
          else if n = "BETTER_AUTH_SECRET" then
            some "0123456789abcdef0123456789abcdef"
          else if n = "BETTER_AUTH_URL" then some "http://localhost:8000"
          else if n = "FRONTEND_URL" then some "http://localhost:3002"
          else none) =
      .ok (applyDefaults
        (fun n => if n = "DATABASE_URL" then some "postgres://db"
          else if n = "BETTER_AUTH_SECRET" then
            some "0123456789abcdef0123456789abcdef"
          else if n = "BETTER_AUTH_URL" then some "http://localhost:8000"
          else if n = "FRONTEND_URL" then some "http://localhost:3002"
          else none)) ∧
    applyDefaults
        (fun n => if n = "DATABASE_URL" then some "postgres://db"
          else if n = "BETTER_AUTH_SECRET" then
            some "0123456789abcdef0123456789abcdef"
          else if n = "BETTER_AUTH_URL" then some "http://localhost:8000"
          else if n = "FRONTEND_URL" then some "http://localhost:3002"
          else none) "NODE_ENV" = some "development" := by
  have h1 : collectEnvErrors (fun _ => true)
      (fun n => if n = "DATABASE_URL" then some "postgres://db"
        else if n = "BETTER_AUTH_SECRET" then
          some "0123456789abcdef0123456789abcdef"
        else if n = "BETTER_AUTH_URL" then some "http://localhost:8000"
        else if n = "FRONTEND_URL" then some "http://localhost:3002"
        else none) = [] := by decide
  refine ⟨h1, (validateEnv_props (fun _ => true) _).2.1 h1,
    (validateEnv_props (fun _ => true) _).2.2.2.2
      { name := "NODE_ENV"
        description := "Environment (development, production, test)"
        defaultVal := some "development" }
      ?_ "development" rfl (by decide)⟩
  simp [optionalEnvVars]
